import Mathlib

/-!
Verification development for the shakafleet fleet-communication layer.

The definitions below are a shallow embedding of the repository's device
registry, heartbeat ingestion, live (WebSocket) connection manager, command
dispatchers and payment-webhook routers.  JavaScript objects are modelled as
association lists from `String` keys to a primitive JSON value type; the
single-threaded event-loop handlers become pure functions from state to
state; wall-clock time is an explicit `Nat` parameter (milliseconds).
-/

namespace ShakaFleet

/-- A primitive JSON value (string, integer, boolean or null).  Telemetry
blobs in the repository are flat objects over such values. -/
inductive Prim where
  | s (v : String)
  | i (v : Int)
  | b (v : Bool)
  | null
deriving DecidableEq, Repr

/-- JavaScript truthiness of a primitive value: the falsy primitives are
the empty string, the number 0, false and null. -/
def Prim.truthy : Prim → Bool
  | .s v => v ≠ ""
  | .i v => v ≠ 0
  | .b v => v
  | .null => false

/-- Truthiness of a possibly-absent value: an absent field (JS undefined)
is falsy, a present field has its own truthiness. -/
def otruthy : Option Prim → Bool
  | none => false
  | some p => p.truthy

/-- Truthiness of a possibly-absent string (used for the chains of
string-valued fallbacks written with the JS or-operator). -/
def struthy : Option String → Bool
  | none => false
  | some v => v ≠ ""

/-- The JS or-operator restricted to possibly-absent strings: keeps the
left operand when it is truthy, otherwise yields the right operand. -/
def jsOr (a b : Option String) : Option String :=
  if struthy a then a else b

/-- The address normalization `ip.split(":")[0]`: the characters before
the first colon (the whole string when it has no colon). -/
def stripPort (s : String) : String :=
  String.mk (s.data.takeWhile (fun ch => ¬ (ch = ':')))

/-- The JS `s.startsWith(pre)`, as a structural character comparison. -/
def strStartsWith (s pre : String) : Bool :=
  s.data.take pre.data.length == pre.data

/-- A flat JSON object: an association list of string keys to primitives. -/
abbrev JObj := List (String × Prim)

/-- Key lookup in a flat object (first binding wins). -/
def jget : JObj → String → Option Prim
  | [], _ => none
  | (k, v) :: rest, key => if k = key then some v else jget rest key

/-- The JS object spread `\x7b...old, ...new\x7d`: every key of `old` keeps its
position but takes the value from `new` when `new` also binds it, and the
keys of `new` that are absent from `old` are appended. -/
def mergeObj (old new : JObj) : JObj :=
  old.map (fun p =>
    match jget new p.1 with
    | some v => (p.1, v)
    | none => p)
  ++ new.filter (fun q => (jget old q.1).isNone)

/-- Lookup in a string-keyed association store (models property access on a
JS object used as a dictionary). -/
def alookup {α : Type} : List (String × α) → String → Option α
  | [], _ => none
  | (k, v) :: rest, key => if k = key then some v else alookup rest key

/-- Assignment `store[k] = v` on a string-keyed association store: replaces
the existing binding in place, or appends a fresh one. -/
def aset {α : Type} : List (String × α) → String → α → List (String × α)
  | [], key, v => [(key, v)]
  | (k0, v0) :: rest, key, v =>
      if k0 = key then (key, v) :: rest else (k0, v0) :: aset rest key v

/-- Deletion `delete store[k]` on a string-keyed association store. -/
def adel {α : Type} (t : List (String × α)) (key : String) : List (String × α) :=
  t.filter (fun e => e.1 ≠ key)

/-- The request-provenance block stamped on a machine by heartbeat
handlers (`machine.source` in the source). -/
structure Source where
  forwardedFor : Option String
  ip : Option String
  userAgent : Option String
  receivedAt : Nat
  transport : Option String
deriving DecidableEq, Repr

/-- A queued product-sync command (`machine.pendingSync`). -/
structure PendingSync where
  products : List Prim
  queuedAt : Nat
  queuedBy : Option String
deriving DecidableEq, Repr

/-- A queued Stripe-configuration push (`machine.pendingStripeConfig`). -/
structure PendingStripeConfig where
  envContent : String
  readerId : String
  simulation : Bool
  secretKey : String
  queuedAt : Nat
  queuedBy : String
deriving DecidableEq, Repr

/-- A device-registry entry (`machinesDB[machineId]`).  Fields that some
creation sites leave undefined are `Option`-typed. -/
structure Machine where
  id : String
  name : String
  status : Prim
  lastSeen : Nat
  uptime : Prim
  inventory : JObj
  cameraSnapshot : Option String
  sensors : JObj
  firmware : Prim
  agentVersion : Option Prim
  location : Prim
  firstSeen : Nat
  snapshots : Option JObj
  snapshotsUpdatedAt : Option Nat
  proximity : Option JObj
  meta : Option JObj
  source : Option Source
  wsConnected : Bool
  pendingSync : Option PendingSync
  pendingStripeConfig : Option PendingStripeConfig
deriving DecidableEq, Repr

/-- The in-memory device registry, keyed by machine id. -/
abbrev MachinesDB := List (String × Machine)

/-- A heartbeat request body.  Each telemetry field is optional; scalar
fields may carry any primitive (the handlers gate them on truthiness). -/
structure HbPayload where
  machineId : Option Prim
  status : Option Prim
  sensors : Option JObj
  inventory : Option JObj
  location : Option Prim
  firmware : Option Prim
  agentVersion : Option Prim
  uptime : Option Prim
  meta : Option JObj
  proximity : Option JObj
  snapshots : Option JObj
deriving DecidableEq, Repr

/-- The uptime string computed from the first-seen timestamp when a
heartbeat omits an explicit uptime (`computeUptime` in the source; the
difference is in milliseconds). -/
def computeUptime (now firstSeen : Nat) : String :=
  let diff := now - firstSeen
  let days := diff / 86400000
  let hours := (diff % 86400000) / 3600000
  let minutes := (diff % 3600000) / 60000
  s!"{days}j {hours}h {minutes}m"

/-- The default registry entry created by the agent-heartbeat ingestor on a
device's first heartbeat (creation block of the agent heartbeat POST; the
WebSocket server's `processHeartbeat` uses the same defaults). -/
def defaultMachineAgent (mid : String) (now : Nat) (location : Option Prim) : Machine where
  id := mid
  name := "Station " ++ mid.toUpper
  status := .s "offline"
  lastSeen := now
  uptime := .s "0j 0h 0m"
  inventory := []
  cameraSnapshot := none
  sensors := [("temp", .i 0), ("humidity", .i 0), ("doorOpen", .b false)]
  firmware := .s "unknown"
  agentVersion := some (.s "unknown")
  location := if otruthy location then location.getD .null else .s "Inconnue"
  firstSeen := now
  snapshots := some []
  snapshotsUpdatedAt := none
  proximity := none
  meta := none
  source := none
  wsConnected := false
  pendingSync := none
  pendingStripeConfig := none

/-- The default registry entry created by the legacy heartbeat route
(creation block of the legacy heartbeat POST): it additionally seeds a
`cameraSnapshot` URL and does not seed `agentVersion` or `snapshots`. -/
def defaultMachineLegacy (mid : String) (now : Nat) (location : Option Prim) : Machine where
  id := mid
  name := "Station " ++ mid.toUpper
  status := .s "offline"
  lastSeen := now
  uptime := .s "0j 0h 0m"
  inventory := []
  cameraSnapshot := some ("/api/machines/" ++ mid ++ "/snapshot")
  sensors := [("temp", .i 0), ("humidity", .i 0), ("doorOpen", .b false)]
  firmware := .s "unknown"
  agentVersion := none
  location := if otruthy location then location.getD .null else .s "Inconnue"
  firstSeen := now
  snapshots := none
  snapshotsUpdatedAt := none
  proximity := none
  meta := none
  source := none
  wsConnected := false
  pendingSync := none
  pendingStripeConfig := none

/-- The field-merge block of the agent-heartbeat ingestor: presence here
is JS truthiness, `sensors` is merged by spread, `inventory` and
`snapshots` are replaced wholesale, `proximity` is replaced wholesale plus
an `updatedAt` stamp, and a falsy or absent `uptime` is recomputed from
`firstSeen`.  The provenance `source` is stamped unconditionally. -/
def agentMerge (m : Machine) (p : HbPayload) (now : Nat) (fwd ua : Option String) : Machine :=
  let m := { m with lastSeen := now }
  let m := { m with status := if otruthy p.status then p.status.getD .null else m.status }
  let m := { m with sensors := match p.sensors with
    | some sn => mergeObj m.sensors sn
    | none => m.sensors }
  let m := { m with location := if otruthy p.location then p.location.getD .null else m.location }
  let m := { m with firmware := if otruthy p.firmware then p.firmware.getD .null else m.firmware }
  let m := { m with agentVersion := if otruthy p.agentVersion then p.agentVersion else m.agentVersion }
  let m := { m with uptime := if otruthy p.uptime then p.uptime.getD .null
                              else .s (computeUptime now m.firstSeen) }
  let m := { m with inventory := match p.inventory with
    | some inv => inv
    | none => m.inventory }
  let m := { m with
    snapshots := match p.snapshots with
      | some sn => some sn
      | none => m.snapshots,
    snapshotsUpdatedAt := match p.snapshots with
      | some _ => some now
      | none => m.snapshotsUpdatedAt }
  let m := { m with proximity := match p.proximity with
    | some px => some (mergeObj px [("updatedAt", .i now)])
    | none => m.proximity }
  let m := { m with meta := match p.meta with
    | some mt => some mt
    | none => m.meta }
  { m with source := some { forwardedFor := fwd, ip := none, userAgent := ua,
                            receivedAt := now, transport := none } }

/-- The response-body summary echoed by the agent-heartbeat ingestor
(`received` in the 200 response): raw `machineId`, `status` and `sensors`,
a boolean for `inventory`, `meta` and `proximity`, and the snapshot count. -/
structure HbReceived where
  machineId : String
  status : Option Prim
  sensors : Option JObj
  inventory : Bool
  snapshots : Nat
  meta : Bool
  proximity : Bool
deriving DecidableEq, Repr

/-- The HTTP outcome of a heartbeat POST (agent route). -/
inductive HbResp where
  | badRequest (error : String)
  | ok (received : HbReceived)
deriving DecidableEq, Repr

/-- The agent-heartbeat ingestor POST: validates the machine id, creates
the registry entry on first contact, applies the merge, and acknowledges.
The acknowledgement carries no pending commands and the handler never
touches the pending-command slots. -/
def agentHeartbeat (db : MachinesDB) (now : Nat) (p : HbPayload) (fwd ua : Option String) :
    MachinesDB × HbResp :=
  match p.machineId with
  | some (Prim.s mid) =>
    if mid = "" then (db, .badRequest "machineId required")
    else
      let m0 := match alookup db mid with
        | some m => m
        | none => defaultMachineAgent mid now p.location
      let m1 := agentMerge m0 p now fwd ua
      (aset db mid m1,
       .ok { machineId := mid, status := p.status, sensors := p.sensors,
             inventory := p.inventory.isSome,
             snapshots := (p.snapshots.getD []).length,
             meta := p.meta.isSome, proximity := p.proximity.isSome })
  | _ => (db, .badRequest "machineId required")

/-- The response-body summary echoed by the legacy heartbeat route:
raw `machineId`, `status`, `sensors` and `inventory`. -/
structure LegacyReceived where
  machineId : String
  status : Option Prim
  sensors : Option JObj
  inventory : Option JObj
deriving DecidableEq, Repr

/-- The HTTP outcome of the legacy heartbeat POST. -/
inductive LegacyResp where
  | badRequest (error : String)
  | ok (received : LegacyReceived)
deriving DecidableEq, Repr

/-- The legacy heartbeat route POST: same create-then-merge shape, but it
merges `inventory` key-by-key (spread over the stored object) instead of
replacing it, handles no `agentVersion`, `meta`, `proximity` or
`snapshots` fields, and stamps no provenance. -/
def legacyHeartbeat (db : MachinesDB) (now : Nat) (p : HbPayload) :
    MachinesDB × LegacyResp :=
  match p.machineId with
  | some (Prim.s mid) =>
    if mid = "" then (db, .badRequest "machineId required")
    else
      let m0 := match alookup db mid with
        | some m => m
        | none => defaultMachineLegacy mid now p.location
      let m := { m0 with lastSeen := now }
      let m := { m with status := if otruthy p.status then p.status.getD .null else m.status }
      let m := { m with sensors := match p.sensors with
        | some sn => mergeObj m.sensors sn
        | none => m.sensors }
      let m := { m with inventory := match p.inventory with
        | some inv => mergeObj m.inventory inv
        | none => m.inventory }
      let m := { m with location := if otruthy p.location then p.location.getD .null else m.location }
      let m := { m with firmware := if otruthy p.firmware then p.firmware.getD .null else m.firmware }
      let m := { m with uptime := if otruthy p.uptime then p.uptime.getD .null
                                  else .s (computeUptime now m.firstSeen) }
      (aset db mid m,
       .ok { machineId := mid, status := p.status, sensors := p.sensors,
             inventory := p.inventory })
  | _ => (db, .badRequest "machineId required")

/-- One live WebSocket channel: its object identity `cid`, the ping/pong
liveness flag `isAlive`, and the per-socket `machineId` closure variable
set by auth messages.  Only open channels are kept in the server state. -/
structure Conn where
  cid : Nat
  isAlive : Bool
  authedAs : Option String
deriving DecidableEq, Repr

/-- The live-connection manager state: the set of open channels
(`wss.clients`) and the device-id-to-channel table (`__wsClients`). -/
structure WsState where
  conns : List Conn
  table : List (String × Nat)
deriving DecidableEq, Repr

/-- `broadcastToMachine`: true exactly when the table maps the device id
to a channel that is still open (readyState 1). -/
def wsPush (st : WsState) (mid : String) : Bool :=
  match alookup st.table mid with
  | some cid => st.conns.any (fun c => c.cid = cid)
  | none => false

/-- A new raw channel: appended open, alive, unauthenticated. -/
def wsConnect (st : WsState) (cid : Nat) : WsState :=
  { st with conns := st.conns ++ [{ cid := cid, isAlive := true, authedAs := none }] }

/-- The close-event handler of a channel: the channel leaves the open set
and, when its closure variable holds a device id, that id's table entry is
deleted unconditionally (no check that the entry still points here). -/
def wsClose (st : WsState) (cid : Nat) : WsState :=
  match st.conns.find? (fun c => c.cid = cid) with
  | some c =>
    { conns := st.conns.filter (fun d => d.cid ≠ cid),
      table := match c.authedAs with
        | some mid => adel st.table mid
        | none => st.table }
  | none => st

/-- An auth message on a channel: a missing id sends an error frame and
closes the channel (the closure variable is still unset, so the close
handler touches no table entry); otherwise the closure variable is set and
the table entry for that id is replaced to point at this channel. -/
def wsAuth (st : WsState) (cid : Nat) (mid : Option String) : WsState :=
  match mid with
  | none => { st with conns := st.conns.filter (fun d => d.cid ≠ cid) }
  | some id0 =>
    if id0 = "" then { st with conns := st.conns.filter (fun d => d.cid ≠ cid) }
    else
      { conns := st.conns.map (fun c => if c.cid = cid then { c with authedAs := some id0 } else c),
        table := aset st.table id0 cid }

/-- A pong from a channel: its liveness flag becomes true. -/
def wsPong (st : WsState) (cid : Nat) : WsState :=
  { st with conns := st.conns.map (fun c => if c.cid = cid then { c with isAlive := true } else c) }

/-- One round of the 30-second ping interval, as the net effect of the
per-channel loop: every channel whose flag is still down is terminated
(its close handler then deletes the table entry for its device id), and
every surviving channel has its flag lowered and is pinged.  The effects
of distinct iterations touch distinct channels and are order-independent,
so the loop equals this aggregate. -/
def pingTick (st : WsState) : WsState where
  conns := (st.conns.filter (fun c => c.isAlive)).map (fun c => { c with isAlive := false })
  table := st.table.filter
    (fun e => ¬ st.conns.any (fun c => !c.isAlive && c.authedAs == some e.1))

/-- The field-merge block of the WebSocket-path heartbeat processor
(`processHeartbeat` in the custom server): identical to the agent
ingestor's merge except that a falsy `uptime` is left untouched (no
recomputation), the provenance is stamped with transport `websocket`, and
`wsConnected` is raised. -/
def serverMerge (m : Machine) (p : HbPayload) (now : Nat) (fwd ua : Option String) : Machine :=
  let m := { m with lastSeen := now }
  let m := { m with status := if otruthy p.status then p.status.getD .null else m.status }
  let m := { m with sensors := match p.sensors with
    | some sn => mergeObj m.sensors sn
    | none => m.sensors }
  let m := { m with location := if otruthy p.location then p.location.getD .null else m.location }
  let m := { m with firmware := if otruthy p.firmware then p.firmware.getD .null else m.firmware }
  let m := { m with agentVersion := if otruthy p.agentVersion then p.agentVersion else m.agentVersion }
  let m := { m with uptime := if otruthy p.uptime then p.uptime.getD .null else m.uptime }
  let m := { m with inventory := match p.inventory with
    | some inv => inv
    | none => m.inventory }
  let m := { m with
    snapshots := match p.snapshots with
      | some sn => some sn
      | none => m.snapshots,
    snapshotsUpdatedAt := match p.snapshots with
      | some _ => some now
      | none => m.snapshotsUpdatedAt }
  let m := { m with proximity := match p.proximity with
    | some px => some (mergeObj px [("updatedAt", .i now)])
    | none => m.proximity }
  let m := { m with meta := match p.meta with
    | some mt => some mt
    | none => m.meta }
  { m with
    source := some { forwardedFor := fwd, ip := none, userAgent := ua,
                     receivedAt := now, transport := some "websocket" },
    wsConnected := true }

/-- The WebSocket heartbeat processor, continued: create-or-merge via
`serverMerge`, then drain `pendingSync`: the slot is cleared and the
command pushed over the live channel; the second component reports the
drained products and whether the push found an open channel. -/
def processHeartbeat (ws : WsState) (db : MachinesDB) (now : Nat) (mid : String)
    (p : HbPayload) (fwd ua : Option String) : MachinesDB × Option (List Prim × Bool) :=
  let m0 := match alookup db mid with
    | some m => m
    | none => defaultMachineAgent mid now p.location
  let m := serverMerge m0 p now fwd ua
  match m.pendingSync with
  | some sync =>
    (aset db mid { m with pendingSync := none }, some (sync.products, wsPush ws mid))
  | none => (aset db mid m, none)

/-- An authenticated dashboard session (`getSession`). -/
structure Session where
  email : String
  role : String
deriving DecidableEq, Repr

/-- A delivery step actually attempted by a dispatcher, in order:
a push over the live channel, a direct bounded-timeout HTTP push to the
device's last known address, or a write into the pending slot. -/
inductive Step where
  | live
  | http
  | queue
deriving DecidableEq, Repr

/-- A dispatcher's HTTP response: status, `ok` flag, and the `transport`
string reported to the caller, when any. -/
structure DispatchResp where
  status : Nat
  ok : Bool
  transport : Option String
deriving DecidableEq, Repr

/-- The sync-products POST (command dispatcher for the product-sync
command): after the session, machine-existence and body checks it tries
the live push when the broadcast hook is installed, and otherwise writes
the `pendingSync` slot.  It attempts no direct HTTP push.  The third
component lists the steps attempted, in order. -/
def syncProductsPOST (me : Option Session) (wsAvail : Bool) (ws : WsState)
    (db : MachinesDB) (now : Nat) (mid : String) (products : Option (List Prim)) :
    MachinesDB × DispatchResp × List Step :=
  match me with
  | none => (db, { status := 401, ok := false, transport := none }, [])
  | some u =>
    if u.role ≠ "admin" then (db, { status := 403, ok := false, transport := none }, [])
    else match alookup db mid with
      | none => (db, { status := 404, ok := false, transport := none }, [])
      | some m =>
        match products with
        | none => (db, { status := 400, ok := false, transport := none }, [])
        | some ps =>
          if wsAvail && wsPush ws mid then
            (db, { status := 200, ok := true, transport := some "websocket" }, [.live])
          else
            let cmd : PendingSync := { products := ps, queuedAt := now, queuedBy := some u.email }
            (aset db mid { m with pendingSync := some cmd },
             { status := 200, ok := true, transport := some "http-pending" },
             (if wsAvail then [Step.live] else []) ++ [Step.queue])

/-- The sync-products GET (heartbeat-poll drain): when the machine holds a
pending sync, the response carries it and the slot is cleared; otherwise,
and for unknown machines, the response reports nothing pending. -/
inductive SyncGetResp where
  | noPending
  | pending (products : List Prim) (queuedAt : Nat)
deriving DecidableEq, Repr

/-- The sync-products GET handler. -/
def syncGET (db : MachinesDB) (mid : String) : MachinesDB × SyncGetResp :=
  match alookup db mid with
  | none => (db, .noPending)
  | some m =>
    match m.pendingSync with
    | some sync => (aset db mid { m with pendingSync := none },
                    .pending sync.products sync.queuedAt)
    | none => (db, .noPending)

/-- The Stripe configuration computed and saved by the stripe-config POST
before dispatch (secret-key resolution and file persistence happen outside
this model; the dispatch cascade only reads these fields). -/
structure StripeCfg where
  envContent : String
  readerId : String
  simulation : Bool
  secretKey : String
deriving DecidableEq, Repr

/-- The last-known device address used by the stripe-config direct push:
the first truthy of `source.forwardedFor`, `source.ip` and `meta.ip`, with
any port suffix stripped. -/
def machineIp (m : Machine) : Option String :=
  let raw := jsOr (m.source.bind (fun s => s.forwardedFor))
             (jsOr (m.source.bind (fun s => s.ip))
               (match m.meta.bind (fun o => jget o "ip") with
                | some (Prim.s v) => some v
                | _ => none))
  if struthy raw then some (stripPort (raw.getD "")) else none

/-- The stripe-config POST (command dispatcher for the terminal-config
command): live push first; on failure a direct HTTP push to the device's
last known address with a 10s timeout (`httpOk` is the outcome of that
call: false on network error, timeout or a non-ok reply); on failure the
`pendingStripeConfig` slot is written when the machine exists, and the
response still reports success with transport `http-pending`. -/
def stripeConfigPOST (me : Option Session) (wsAvail : Bool) (ws : WsState)
    (db : MachinesDB) (now : Nat) (mid : String) (cfg : StripeCfg) (httpOk : Bool) :
    MachinesDB × DispatchResp × List Step :=
  match me with
  | none => (db, { status := 401, ok := false, transport := none }, [])
  | some u =>
    if u.role ≠ "admin" then (db, { status := 403, ok := false, transport := none }, [])
    else
      if wsAvail && wsPush ws mid then
        (db, { status := 200, ok := true, transport := some "websocket" }, [.live])
      else
        let ipStep : Option String := match alookup db mid with
          | some m => machineIp m
          | none => none
        let steps0 := (if wsAvail then [Step.live] else [])
        let cmd : PendingStripeConfig :=
          { envContent := cfg.envContent, readerId := cfg.readerId,
            simulation := cfg.simulation, secretKey := cfg.secretKey,
            queuedAt := now, queuedBy := u.email }
        let queued : MachinesDB := match alookup db mid with
          | some m => aset db mid { m with pendingStripeConfig := some cmd }
          | none => db
        match ipStep with
        | some _ =>
          if httpOk then
            (db, { status := 200, ok := true, transport := some "http-push" },
             steps0 ++ [Step.http])
          else
            (queued, { status := 200, ok := true, transport := some "http-pending" },
             steps0 ++ [Step.http, Step.queue])
        | none =>
          (queued, { status := 200, ok := true, transport := some "http-pending" },
           steps0 ++ [Step.queue])

/-- A machine record as read from the persisted machines file by the
webhook routers (fields the routers consult). -/
structure MachineRecord where
  id : String
  name : String
  stripeReaderId : Option String
  nayaxTerminalId : Option String
  srcForwardedFor : Option String
  srcIp : Option String
  metaIp : Option String
deriving DecidableEq, Repr

/-- `findMachineByReaderId`: exact match on the stored Stripe reader id,
else the sole machine when the registry has exactly one. -/
def findMachineByReaderId (machines : List MachineRecord) (readerId : String) :
    Option MachineRecord :=
  match machines.find? (fun m => m.stripeReaderId = some readerId) with
  | some m => some m
  | none => if machines.length = 1 then machines.head? else none

/-- `findMachineByMetadata`: exact match on a `machineId` carried in the
payment-intent metadata; no fallback here. -/
def findMachineByMetadata (machines : List MachineRecord) (metaMachineId : Option String) :
    Option MachineRecord :=
  match metaMachineId with
  | some mid => if mid = "" then none else machines.find? (fun m => m.id = mid)
  | none => none

/-- `findMachineByTerminalId`: exact match on the stored Nayax terminal id,
else the sole machine when the registry has exactly one. -/
def findMachineByTerminalId (machines : List MachineRecord) (terminalId : String) :
    Option MachineRecord :=
  match machines.find? (fun m => m.nayaxTerminalId = some terminalId) with
  | some m => some m
  | none => if machines.length = 1 then machines.head? else none

/-- `getMachineIp`: first truthy of the heartbeat forwarded-for, source ip
and metadata ip, with any port suffix stripped; null when all are falsy. -/
def getMachineIp (m : MachineRecord) : Option String :=
  let raw := jsOr m.srcForwardedFor (jsOr m.srcIp m.metaIp)
  if struthy raw then some (stripPort (raw.getD "")) else none

/-- A parsed Stripe webhook event: its type, the object id carried in
`data.object` (the reader id for terminal events), the `machineId`
metadata entry, and the reader recorded on the latest charge. -/
structure StripeEvent where
  eventType : String
  dataObjectId : Option String
  metadataMachineId : Option String
  chargeReader : Option String
deriving DecidableEq, Repr

/-- The allow-list of Stripe event types that are forwarded at all. -/
def FORWARD_EVENTS : List String :=
  ["terminal.reader.action_succeeded", "terminal.reader.action_failed",
   "terminal.reader.action_updated", "payment_intent.amount_capturable_updated",
   "payment_intent.canceled"]

/-- The outcome of a webhook POST: the HTTP status returned to the
provider and the forwards performed (device ip, event type). -/
structure WebhookResult where
  status : Nat
  forwards : List (String × String)
deriving DecidableEq, Repr

/-- The device-resolution block of the Stripe webhook POST: reader-id
match for terminal events, metadata match with a charge-reader fallback
for payment-intent events, then the sole-machine fallback. -/
def stripeResolve (machines : List MachineRecord) (ev : StripeEvent) :
    Option MachineRecord :=
  let m1 : Option MachineRecord :=
    if strStartsWith ev.eventType "terminal.reader." then
      findMachineByReaderId machines
        (if struthy ev.dataObjectId then ev.dataObjectId.getD "" else "")
    else none
  let m2 : Option MachineRecord :=
    if strStartsWith ev.eventType "payment_intent." then
      match findMachineByMetadata machines ev.metadataMachineId with
      | some m => some m
      | none =>
        if struthy ev.chargeReader then
          findMachineByReaderId machines (ev.chargeReader.getD "")
        else none
    else m1
  match m2 with
  | some m => some m
  | none => if machines.length = 1 then machines.head? else none

/-- The Stripe webhook POST.  `secretConfigured`/`sigPresent`/`sigValid`
model the signature check on the raw body; `body` is the parse result
(`none` when `JSON.parse` throws, which the outer catch turns into a 500);
`fwdFails` is the outcome of the bounded-timeout forward call, which is
caught and logged without changing the acknowledgement. -/
def stripeWebhook (secretConfigured sigPresent sigValid : Bool)
    (body : Option StripeEvent) (machines : List MachineRecord) (fwdFails : Bool) :
    WebhookResult :=
  if secretConfigured && sigPresent && !sigValid then
    { status := 400, forwards := [] }
  else
    match body with
    | none => { status := 500, forwards := [] }
    | some ev =>
      if ev.eventType ∉ FORWARD_EVENTS then { status := 200, forwards := [] }
      else
        match stripeResolve machines ev with
        | none => { status := 200, forwards := [] }
        | some m =>
          match getMachineIp m with
          | none => { status := 200, forwards := [] }
          | some ip =>
            { status := 200, forwards := [(ip, ev.eventType)] }

/-- A parsed Nayax webhook payload: the resolved event type, the terminal
id (empty when missing) and the Spark transaction id. -/
structure NayaxPayload where
  eventType : String
  terminalId : String
  sparkTxnId : String
deriving DecidableEq, Repr

/-- The Nayax webhook POST.  `body` is the parse result (`none` when the
request body is unparseable, which the catch turns into a 500);
`fwdResult` is the forward outcome: `none` models a thrown forward error
(still acknowledged with ResultCode 0), `some rc` a reply from the device
whose result code is relayed.  The HTTP status to the provider is 200 in
every parseable case. -/
def nayaxWebhook (body : Option NayaxPayload) (machines : List MachineRecord)
    (fwdResult : Option Int) : WebhookResult :=
  match body with
  | none => { status := 500, forwards := [] }
  | some pl =>
    match findMachineByTerminalId machines pl.terminalId with
    | none => { status := 200, forwards := [] }
    | some m =>
      match getMachineIp m with
      | none => { status := 200, forwards := [] }
      | some ip =>
        { status := 200, forwards := [(ip, pl.eventType)] }

/-- A live-connection state with no channels. -/
def wsEmpty : WsState where
  conns := []
  table := []

/-- A sequence of product-sync queue operations through the dispatcher
(each call with the live channel unavailable, so each one takes the queue
path), folded over the registry. -/
def runSyncQueueSeq (u : Session) (db : MachinesDB) (mid : String)
    (ops : List (Nat × List Prim)) : MachinesDB :=
  ops.foldl (fun d op =>
    (syncProductsPOST (some u) false wsEmpty d op.1 mid (some op.2)).1) db

/-- A sequence of stripe-config queue operations through the dispatcher
(live channel unavailable and direct push failing, so each call ends in
the queue step), folded over the registry. -/
def runStripeQueueSeq (u : Session) (db : MachinesDB) (mid : String)
    (ops : List (Nat × StripeCfg)) : MachinesDB :=
  ops.foldl (fun d op =>
    (stripeConfigPOST (some u) false wsEmpty d op.1 mid op.2 false).1) db

/-- A heartbeat payload with every telemetry field absent. -/
def emptyHb (mid : Option Prim) : HbPayload where
  machineId := mid
  status := none
  sensors := none
  inventory := none
  location := none
  firmware := none
  agentVersion := none
  uptime := none
  meta := none
  proximity := none
  snapshots := none

/-- A concrete pending product-sync command. -/
def pendingFix : PendingSync where
  products := [Prim.s "X"]
  queuedAt := 1
  queuedBy := some "admin@shaka"

/-- A concrete registry entry holding an undelivered product sync. -/
def mFix : Machine :=
  { defaultMachineAgent "m1" 0 none with pendingSync := some pendingFix }

/-- A registry containing only `mFix`. -/
def dbFix : MachinesDB := [("m1", mFix)]

/-- An admin session fixture. -/
def adminFix : Session where
  email := "admin@shaka"
  role := "admin"

/-- A registry entry whose last heartbeat recorded a reachable address. -/
def mAddrFix : Machine :=
  { defaultMachineAgent "m1" 0 none with
      source := some { forwardedFor := some "10.0.0.5", ip := none,
                       userAgent := none, receivedAt := 0, transport := none } }

/-- A registry containing only `mAddrFix`. -/
def dbAddrFix : MachinesDB := [("m1", mAddrFix)]

/-- The live-connection trace of: channel 1 authenticates as device `m`,
channel 2 authenticates as the same device (replacing the entry), then the
superseded channel 1 closes. -/
def c4trace : WsState :=
  wsClose (wsAuth (wsConnect (wsAuth (wsConnect wsEmpty 1) 1 (some "m")) 2) 2 (some "m")) 1

/-- A registry entry with a stored inventory, for the legacy-route merge. -/
def mInvFix : Machine :=
  { defaultMachineLegacy "m1" 0 none with inventory := [("a", Prim.i 1)] }

/-- A registry containing only `mInvFix`. -/
def dbInvFix : MachinesDB := [("m1", mInvFix)]

/-- The spec's end-to-end sensor scenario, first heartbeat. -/
def scen1 : MachinesDB :=
  (agentHeartbeat [] 1000
    { emptyHb (some (Prim.s "dev-1")) with sensors := some [("doorOpen", Prim.b true)] }
    none none).1

/-- The spec's end-to-end sensor scenario, second heartbeat. -/
def scen2 : MachinesDB :=
  (agentHeartbeat scen1 2000
    { emptyHb (some (Prim.s "dev-1")) with sensors := some [("temp", Prim.i 21)] }
    none none).1

/-- A registry entry with a stored uptime string, for the falsy-uptime
counterexample. -/
def mUpFix : Machine :=
  { defaultMachineAgent "m1" 0 none with uptime := Prim.s "99j 9h 9m" }

/-- A registry containing only `mUpFix`. -/
def dbUpFix : MachinesDB := [("m1", mUpFix)]

/-- A sole machine record with no recorded address and no terminal id. -/
def recNoIp : MachineRecord where
  id := "m1"
  name := "Station M1"
  stripeReaderId := none
  nayaxTerminalId := none
  srcForwardedFor := none
  srcIp := none
  metaIp := none

/-- A Nayax payload whose terminal id matches no machine. -/
def nayaxFix : NayaxPayload where
  eventType := "StartSession"
  terminalId := "T9"
  sparkTxnId := "tx1"

/-- A Stripe terminal event fixture on the forwarded allow-list. -/
def stripeEvFix : StripeEvent where
  eventType := "terminal.reader.action_succeeded"
  dataObjectId := some "tmr_1"
  metadataMachineId := none
  chargeReader := none

/-- A second machine record, to populate a two-device registry. -/
def recOther : MachineRecord where
  id := "m2"
  name := "Station M2"
  stripeReaderId := some "tmr_2"
  nayaxTerminalId := some "T2"
  srcForwardedFor := none
  srcIp := none
  metaIp := none

/-- A sole machine record whose last heartbeat recorded an address with a
port suffix. -/
def recAddr : MachineRecord where
  id := "m3"
  name := "Station M3"
  stripeReaderId := none
  nayaxTerminalId := none
  srcForwardedFor := some "10.0.0.5:3311"
  srcIp := none
  metaIp := none

/-- A Stripe configuration fixture. -/
def cfgFix : StripeCfg where
  envContent := "ENV"
  readerId := "tmr_1"
  simulation := true
  secretKey := "sk_test"

lemma alookup_aset_self {α : Type} (t : List (String × α)) (k : String) (v : α) :
    alookup (aset t k v) k = some v := by
  induction t with
  | nil => simp [aset, alookup]
  | cons hd tl ih => by_cases h : hd.1 = k <;> simp [aset, alookup, h, ih]

lemma alookup_filter_none {α : Type} (t : List (String × α)) (k : String)
    (pr : String × α → Bool) (h : ∀ v, pr (k, v) = false) :
    alookup (t.filter pr) k = none := by
  induction t with
  | nil => rfl
  | cons hd tl ih =>
    by_cases hk : hd.1 = k
    · have hpr : pr hd = false := by
        obtain ⟨a, b⟩ := hd
        simp only at hk
        subst hk
        exact h b
      simpa [List.filter_cons, hpr] using ih
    · by_cases hp : pr hd = true <;> simp [List.filter_cons, hp, alookup, hk, ih]

lemma alookup_filter_of_none {α : Type} (t : List (String × α)) (k : String)
    (pr : String × α → Bool) (h : alookup t k = none) :
    alookup (t.filter pr) k = none := by
  induction t with
  | nil => rfl
  | cons hd tl ih =>
    by_cases hk : hd.1 = k
    · exfalso
      simp [alookup, hk] at h
    · have htl : alookup tl k = none := by simpa [alookup, hk] using h
      by_cases hp : pr hd = true <;> simp [List.filter_cons, hp, alookup, hk, ih htl]

lemma alookup_adel {α : Type} (t : List (String × α)) (k : String) :
    alookup (adel t k) k = none := by
  apply alookup_filter_none
  intro v
  simp

lemma agentMerge_pendingSync (m : Machine) (p : HbPayload) (now : Nat) (fwd ua : Option String) :
    (agentMerge m p now fwd ua).pendingSync = m.pendingSync := rfl

lemma agentMerge_sensors (m : Machine) (p : HbPayload) (now : Nat) (fwd ua : Option String) :
    (agentMerge m p now fwd ua).sensors =
      (match p.sensors with
       | some sn => mergeObj m.sensors sn
       | none => m.sensors) := rfl

lemma agentMerge_inventory (m : Machine) (p : HbPayload) (now : Nat) (fwd ua : Option String) :
    (agentMerge m p now fwd ua).inventory =
      (match p.inventory with
       | some inv => inv
       | none => m.inventory) := rfl

lemma agentMerge_snapshots (m : Machine) (p : HbPayload) (now : Nat) (fwd ua : Option String) :
    (agentMerge m p now fwd ua).snapshots =
      (match p.snapshots with
       | some sn => some sn
       | none => m.snapshots) := rfl

lemma agentMerge_proximity (m : Machine) (p : HbPayload) (now : Nat) (fwd ua : Option String) :
    (agentMerge m p now fwd ua).proximity =
      (match p.proximity with
       | some px => some (mergeObj px [("updatedAt", Prim.i now)])
       | none => m.proximity) := rfl

lemma agentMerge_status (m : Machine) (p : HbPayload) (now : Nat) (fwd ua : Option String) :
    (agentMerge m p now fwd ua).status =
      (if otruthy p.status then p.status.getD .null else m.status) := rfl

lemma serverMerge_pendingSync (m : Machine) (p : HbPayload) (now : Nat) (fwd ua : Option String) :
    (serverMerge m p now fwd ua).pendingSync = m.pendingSync := rfl

/-- Claim C7: for every device whose pending slot has been drained by one
pending-command check, an immediately following second check for the same
device returns no pending command (no new command queued in between): a
second consecutive sync-products GET always reports nothing pending. -/
theorem c7_drain_at_most_once (db : MachinesDB) (mid : String) :
    (syncGET (syncGET db mid).1 mid).2 = SyncGetResp.noPending := by
  unfold syncGET
  cases h : alookup db mid with
  | none => simp [h]
  | some m =>
    cases hp : m.pendingSync with
    | none => simp [h, hp]
    | some s => simp [h, hp, alookup_aset_self]

/-- Claim C4 fails on the code: after channel 1 authenticates as device
`m` and channel 2 re-authenticates as the same device (replacing the table
entry), closing the superseded channel 1 still deletes the entry — the
close handler removes by device id unconditionally, so the newer live
channel 2 is left open but unreachable by push. -/
theorem c4_counterexample :
    c4trace.conns = [{ cid := 2, isAlive := true, authedAs := some "m" }]
    ∧ alookup c4trace.table "m" = none
    ∧ wsPush c4trace "m" = false := by decide

/-- Claim C4 amended: on every live-channel close event for a channel
whose closure variable holds an authenticated device id, the table entry
for that id is removed unconditionally — even when the entry points at a
newer channel that replaced this one. -/
theorem c4_amended (st : WsState) (cid : Nat) (c : Conn) (mid : String)
    (hf : st.conns.find? (fun d => d.cid = cid) = some c)
    (ha : c.authedAs = some mid) :
    alookup (wsClose st cid).table mid = none := by
  simp [wsClose, hf, ha, alookup_adel]

/-- Witness for the amended C4 at the two-channel trace. -/
theorem c4_amended_witness :
    alookup (wsClose (wsAuth (wsConnect (wsAuth (wsConnect wsEmpty 1) 1 (some "m")) 2)
      2 (some "m")) 1).table "m" = none :=
  c4_amended (wsAuth (wsConnect (wsAuth (wsConnect wsEmpty 1) 1 (some "m")) 2) 2 (some "m"))
    1 { cid := 1, isAlive := true, authedAs := some "m" } "m" (by decide) rfl

/-- Claim C1 fails on the code: the HTTP heartbeat ingestor neither
returns pending commands in its acknowledgement nor clears them — after a
heartbeat for a device whose slot holds an undelivered command, the slot
still holds it and the ack is a bare received-summary. -/
theorem c1_counterexample :
    ((alookup (agentHeartbeat dbFix 5 (emptyHb (some (Prim.s "m1"))) none none).1 "m1").bind
      Machine.pendingSync) = some pendingFix
    ∧ (agentHeartbeat dbFix 5 (emptyHb (some (Prim.s "m1"))) none none).2 =
        HbResp.ok { machineId := "m1", status := none, sensors := none, inventory := false,
                    snapshots := 0, meta := false, proximity := false } := by decide

/-- Claim C1 amended: pending commands are drained not by the heartbeat
ack but by the dedicated sync-products poll, whose response carries the
pending command and atomically clears the slot; the WebSocket heartbeat
path also clears the slot while handling the heartbeat, pushing the
command as a separate channel message (delivered only if the channel is
open, reported by the flag). -/
theorem c1_amended (ws : WsState) (db : MachinesDB) (mid : String) (m : Machine)
    (c : PendingSync) (now : Nat) (p : HbPayload) (fwd ua : Option String)
    (hm : alookup db mid = some m) (hp : m.pendingSync = some c) :
    (syncGET db mid).2 = SyncGetResp.pending c.products c.queuedAt
    ∧ alookup (syncGET db mid).1 mid = some { m with pendingSync := none }
    ∧ (processHeartbeat ws db now mid p fwd ua).2 = some (c.products, wsPush ws mid)
    ∧ (alookup (processHeartbeat ws db now mid p fwd ua).1 mid).bind Machine.pendingSync
        = none := by
  refine ⟨?_, ?_, ?_, ?_⟩
  · simp [syncGET, hm, hp]
  · simp [syncGET, hm, hp, alookup_aset_self]
  · simp [processHeartbeat, hm, serverMerge_pendingSync, hp]
  · simp [processHeartbeat, hm, serverMerge_pendingSync, hp, alookup_aset_self]

/-- Witness for the amended C1 at a one-device registry with a queued
product sync. -/
theorem c1_amended_witness :
    (syncGET dbFix "m1").2 = SyncGetResp.pending [Prim.s "X"] 1
    ∧ (processHeartbeat wsEmpty dbFix 5 "m1" (emptyHb (some (Prim.s "m1"))) none none).2
        = some ([Prim.s "X"], false) := by
  have h := c1_amended wsEmpty dbFix "m1" mFix pendingFix 5
    (emptyHb (some (Prim.s "m1"))) none none rfl rfl
  exact ⟨h.1, h.2.2.1⟩

/-- Claim C10 fails on the code in its untouched-value part: a heartbeat
carrying the falsy uptime value (empty string) does not leave the stored
uptime untouched — the agent ingestor recomputes it from `firstSeen`
(exactly as when the field is omitted), overwriting the stored string. -/
theorem c10_counterexample :
    mUpFix.uptime = Prim.s "99j 9h 9m"
    ∧ (alookup (agentHeartbeat dbUpFix 60000
        { emptyHb (some (Prim.s "m1")) with uptime := some (Prim.s "") } none none).1
        "m1").map Machine.uptime = some (Prim.s "0j 0h 1m") := by decide

/-- Claim C10 amended: a falsy telemetry field is treated exactly like an
omitted one by the registry merge — the resulting registry state is
identical in both cases on every ingestion path (and the WebSocket path's
whole result is identical) — but for `uptime` the agent ingestor
recomputes the stored value from `firstSeen` rather than leaving it
untouched, and the HTTP ack echoes the raw payload, so only the registry
state (not the response body) is indistinguishable there. -/
theorem c10_amended (ws : WsState) (db : MachinesDB) (now : Nat) (mid : String)
    (p : HbPayload) (fwd ua : Option String) (v : Prim) (hv : v.truthy = false) :
    ((agentHeartbeat db now { p with status := some v } fwd ua).1 =
      (agentHeartbeat db now { p with status := none } fwd ua).1)
    ∧ ((agentHeartbeat db now { p with uptime := some v } fwd ua).1 =
      (agentHeartbeat db now { p with uptime := none } fwd ua).1)
    ∧ (processHeartbeat ws db now mid { p with status := some v } fwd ua =
       processHeartbeat ws db now mid { p with status := none } fwd ua)
    ∧ (processHeartbeat ws db now mid { p with uptime := some v } fwd ua =
       processHeartbeat ws db now mid { p with uptime := none } fwd ua) := by
  refine ⟨?_, ?_, ?_, ?_⟩
  · cases hmid : p.machineId with
    | none => simp [agentHeartbeat, hmid]
    | some q =>
      cases q with
      | s mid2 =>
        by_cases hz : mid2 = "" <;>
          simp [agentHeartbeat, hmid, hz, agentMerge, otruthy, hv]
      | i n => simp [agentHeartbeat, hmid]
      | b bb => simp [agentHeartbeat, hmid]
      | null => simp [agentHeartbeat, hmid]
  · cases hmid : p.machineId with
    | none => simp [agentHeartbeat, hmid]
    | some q =>
      cases q with
      | s mid2 =>
        by_cases hz : mid2 = "" <;>
          simp [agentHeartbeat, hmid, hz, agentMerge, otruthy, hv]
      | i n => simp [agentHeartbeat, hmid]
      | b bb => simp [agentHeartbeat, hmid]
      | null => simp [agentHeartbeat, hmid]
  · simp [processHeartbeat, serverMerge, otruthy, hv]
  · simp [processHeartbeat, serverMerge, otruthy, hv]

/-- Witness for the amended C10: a falsy status and a falsy uptime leave
the registry in the same state as omitting the field. -/
theorem c10_amended_witness :
    (agentHeartbeat dbUpFix 60000
        { emptyHb (some (Prim.s "m1")) with status := some (Prim.s "") } none none).1 =
      (agentHeartbeat dbUpFix 60000 (emptyHb (some (Prim.s "m1"))) none none).1 := by
  have h := c10_amended wsEmpty dbUpFix 60000 "m1" (emptyHb (some (Prim.s "m1")))
    none none (Prim.s "") rfl
  exact h.1

/-- Claim C9 fails on the code at two points: the legacy heartbeat route
merges `inventory` key-by-key instead of replacing it wholesale (the
stored key survives), and the two-heartbeat sensor scenario does not
yield exactly the two claimed keys, because a fresh device is seeded with
default sensors, so `humidity 0` is also present. -/
theorem c9_counterexample :
    ((alookup (legacyHeartbeat dbInvFix 3
        { emptyHb (some (Prim.s "m1")) with inventory := some [("b", Prim.i 2)] }).1
        "m1").map Machine.inventory = some [("a", Prim.i 1), ("b", Prim.i 2)])
    ∧ ((alookup scen2 "dev-1").map (fun m => jget m.sensors "humidity")
        = some (some (Prim.i 0))) := by decide

/-- Claim C9 amended: the merge is presence-based partial overwrite with
`sensors` merged key-by-key; `inventory`, `snapshots` and `proximity` are
replaced wholesale when present on the agent ingestion path (proximity
gaining an `updatedAt` stamp), while the legacy heartbeat route merges
`inventory` key-by-key; the example scenario yields sensors
`temp 21, humidity 0, doorOpen true`, the two claimed keys plus the
seeded default `humidity`. -/
theorem c9_amended (db : MachinesDB) (now : Nat) (p : HbPayload) (fwd ua : Option String)
    (mid : String) (m : Machine) (hm : alookup db mid = some m)
    (hmid : p.machineId = some (Prim.s mid)) (hne : ¬ mid = "") :
    ((alookup (agentHeartbeat db now p fwd ua).1 mid).map Machine.sensors =
        some (match p.sensors with
              | some sn => mergeObj m.sensors sn
              | none => m.sensors))
    ∧ ((alookup (agentHeartbeat db now p fwd ua).1 mid).map Machine.inventory =
        some (match p.inventory with
              | some inv => inv
              | none => m.inventory))
    ∧ ((alookup (agentHeartbeat db now p fwd ua).1 mid).map Machine.snapshots =
        some (match p.snapshots with
              | some sn => some sn
              | none => m.snapshots))
    ∧ ((alookup (agentHeartbeat db now p fwd ua).1 mid).map Machine.proximity =
        some (match p.proximity with
              | some px => some (mergeObj px [("updatedAt", Prim.i now)])
              | none => m.proximity))
    ∧ (otruthy p.status = false →
        (alookup (agentHeartbeat db now p fwd ua).1 mid).map Machine.status = some m.status)
    ∧ ((alookup (legacyHeartbeat db now p).1 mid).map Machine.inventory =
        some (match p.inventory with
              | some inv => mergeObj m.inventory inv
              | none => m.inventory))
    ∧ ((alookup scen2 "dev-1").map Machine.sensors =
        some [("temp", Prim.i 21), ("humidity", Prim.i 0), ("doorOpen", Prim.b true)]) := by
  refine ⟨?_, ?_, ?_, ?_, ?_, ?_, ?_⟩
  · simp [agentHeartbeat, hmid, hne, hm, alookup_aset_self, agentMerge_sensors]
  · simp [agentHeartbeat, hmid, hne, hm, alookup_aset_self, agentMerge_inventory]
  · simp [agentHeartbeat, hmid, hne, hm, alookup_aset_self, agentMerge_snapshots]
  · simp [agentHeartbeat, hmid, hne, hm, alookup_aset_self, agentMerge_proximity]
  · intro hs
    simp [agentHeartbeat, hmid, hne, hm, alookup_aset_self, agentMerge_status, hs]
  · simp [legacyHeartbeat, hmid, hne, hm, alookup_aset_self]
  · decide

/-- Witness for the amended C9: the legacy route merges a stored inventory
with the incoming one instead of replacing it. -/
theorem c9_amended_witness :
    (alookup (legacyHeartbeat dbInvFix 3
        { emptyHb (some (Prim.s "m1")) with inventory := some [("b", Prim.i 2)] }).1
      "m1").map Machine.inventory
      = some (mergeObj [("a", Prim.i 1)] [("b", Prim.i 2)]) := by
  have h := c9_amended dbInvFix 3
    { emptyHb (some (Prim.s "m1")) with inventory := some [("b", Prim.i 2)] }
    none none "m1" mInvFix rfl rfl (by decide)
  exact h.2.2.2.2.2.1

/-- Claim C3 fails on the code: a failed signature verification on the
Stripe webhook is answered with a 400 error, and an unparseable body with
a 500, not with a success acknowledgement. -/
theorem c3_counterexample :
    (stripeWebhook true true false (some stripeEvFix) [recNoIp] false).status = 400
    ∧ (stripeWebhook false false false none [] false).status = 500 := by decide

/-- Claim C3 amended: once the signature check passes and the body parses,
the webhook response to the provider is a success acknowledgement (200)
regardless of allow-list filtering, device resolution, missing address or
the forwarding outcome — the whole result is independent of the forward
outcome; but a signature failure is answered 400 and an unparseable body
500 (both providers). -/
theorem c3_amended (sc sp sv : Bool) (hsig : (sc && sp && !sv) = false)
    (ev : StripeEvent) (machines : List MachineRecord) (f1 f2 : Bool)
    (pl : NayaxPayload) (r1 r2 : Option Int) :
    (stripeWebhook sc sp sv (some ev) machines f1).status = 200
    ∧ stripeWebhook sc sp sv (some ev) machines f1
        = stripeWebhook sc sp sv (some ev) machines f2
    ∧ (nayaxWebhook (some pl) machines r1).status = 200
    ∧ nayaxWebhook (some pl) machines r1 = nayaxWebhook (some pl) machines r2 := by
  refine ⟨?_, rfl, ?_, rfl⟩
  · unfold stripeWebhook
    rw [hsig]
    by_cases hf : ev.eventType ∉ FORWARD_EVENTS
    · simp [hf]
    · cases hr : stripeResolve machines ev with
      | none => simp [hf, hr]
      | some m =>
        cases hip : getMachineIp m with
        | none => simp [hf, hr, hip]
        | some ip => simp [hf, hr, hip]
  · unfold nayaxWebhook
    cases hr : findMachineByTerminalId machines pl.terminalId with
    | none => simp [hr]
    | some m =>
      cases hip : getMachineIp m with
      | none => simp [hr, hip]
      | some ip => simp [hr, hip]

/-- Witness for the amended C3: with no configured secret and a matching
single device whose forward fails, both webhooks still acknowledge 200. -/
theorem c3_amended_witness :
    (stripeWebhook false false false (some stripeEvFix) [recNoIp] true).status = 200
    ∧ (nayaxWebhook (some nayaxFix) [recNoIp] none).status = 200 := by
  have h := c3_amended false false false rfl stripeEvFix [recNoIp] true false
    nayaxFix none (some 0)
  exact ⟨h.1, h.2.2.1⟩

/-- Claim C6 fails on the code in its forwarding part, on both routers:
with exactly one registered device, no exact correlation-id match, and the
device resolved as the sole-machine fallback, the event is still not
forwarded when the device has no recorded address — the Stripe router
(allow-listed terminal event, no reader-id match) and the Nayax router
(no terminal-id match) both drop it while acknowledging. -/
theorem c6_counterexample :
    findMachineByReaderId [recNoIp] "tmr_1" = some recNoIp
    ∧ stripeEvFix.eventType ∈ FORWARD_EVENTS
    ∧ (stripeWebhook false false false (some stripeEvFix) [recNoIp] false).forwards = []
    ∧ (stripeWebhook false false false (some stripeEvFix) [recNoIp] false).status = 200
    ∧ findMachineByTerminalId [recNoIp] "T9" = some recNoIp
    ∧ (nayaxWebhook (some nayaxFix) [recNoIp] (some 0)).forwards = []
    ∧ (nayaxWebhook (some nayaxFix) [recNoIp] (some 0)).status = 200 := by decide

/-- Claim C6 amended, for both routers: the target is resolved by exact
match on the stored correlation id (first match wins) — the Stripe reader
id for allow-listed terminal events, the Nayax terminal id; with no exact
match and exactly one registered device, that sole device is the fallback
target and the event is forwarded to it provided an address is known from
its last heartbeat (otherwise dropped, still acknowledged); with two or
more devices and no exact match, nothing is forwarded and the event is
acknowledged. -/
theorem c6_amended (machines : List MachineRecord) (pl : NayaxPayload) (r : Option Int)
    (ev : StripeEvent) (sc sp sv f : Bool)
    (hne : ∀ m ∈ machines, ¬ m.nayaxTerminalId = some pl.terminalId)
    (hsig : (sc && sp && !sv) = false)
    (hin : ev.eventType ∈ FORWARD_EVENTS)
    (hterm : strStartsWith ev.eventType "terminal.reader." = true)
    (hpi : strStartsWith ev.eventType "payment_intent." = false)
    (hner : ∀ m ∈ machines, ¬ m.stripeReaderId =
        some (if struthy ev.dataObjectId then ev.dataObjectId.getD "" else "")) :
    (2 ≤ machines.length →
      (stripeWebhook sc sp sv (some ev) machines f).forwards = []
      ∧ (stripeWebhook sc sp sv (some ev) machines f).status = 200)
    ∧ (∀ m0 ip, machines = [m0] → getMachineIp m0 = some ip →
        (stripeWebhook sc sp sv (some ev) machines f).forwards = [(ip, ev.eventType)])
    ∧ (∀ (ms : List MachineRecord) (rid : String) (m0 : MachineRecord),
        ms.find? (fun m => m.stripeReaderId = some rid) = some m0 →
        findMachineByReaderId ms rid = some m0)
    ∧ (2 ≤ machines.length →
      (nayaxWebhook (some pl) machines r).forwards = []
      ∧ (nayaxWebhook (some pl) machines r).status = 200)
    ∧ (∀ m0 ip, machines = [m0] → getMachineIp m0 = some ip →
        (nayaxWebhook (some pl) machines r).forwards = [(ip, pl.eventType)])
    ∧ (∀ (ms : List MachineRecord) (tid : String) (m0 : MachineRecord),
        ms.find? (fun m => m.nayaxTerminalId = some tid) = some m0 →
        findMachineByTerminalId ms tid = some m0) := by
  have hfind : machines.find? (fun m => m.nayaxTerminalId = some pl.terminalId) = none := by
    rw [List.find?_eq_none]
    intro m hmem
    simpa using hne m hmem
  have hfr : machines.find? (fun m => m.stripeReaderId =
      some (if struthy ev.dataObjectId then ev.dataObjectId.getD "" else "")) = none := by
    rw [List.find?_eq_none]
    intro m hmem
    simpa using hner m hmem
  refine ⟨?_, ?_, ?_, ?_, ?_, ?_⟩
  · intro hlen
    have hlen1 : ¬ machines.length = 1 := by omega
    simp [stripeWebhook, stripeResolve, findMachineByReaderId, hsig, hin, hterm, hpi,
      hfr, hlen1]
  · intro m0 ip hms hip
    subst hms
    simp [stripeWebhook, stripeResolve, findMachineByReaderId, hsig, hin, hterm, hpi] at hfr ⊢
    simp [hfr, hip]
  · intro ms rid m0 hf
    simp [findMachineByReaderId, hf]
  · intro hlen
    have hlen1 : ¬ machines.length = 1 := by omega
    simp [nayaxWebhook, findMachineByTerminalId, hfind, hlen1]
  · intro m0 ip hms hip
    subst hms
    simp [nayaxWebhook, findMachineByTerminalId] at hfind ⊢
    simp [hfind, hip]
  · intro ms tid m0 hf
    simp [findMachineByTerminalId, hf]

/-- Witness for the amended C6: a two-device registry with no match drops
the event on both routers, and a sole device with a recorded address
receives it from both routers. -/
theorem c6_amended_witness :
    (stripeWebhook false false false (some stripeEvFix) [recNoIp, recOther] false).forwards = []
    ∧ (stripeWebhook false false false (some stripeEvFix) [recAddr] false).forwards
        = [("10.0.0.5", "terminal.reader.action_succeeded")]
    ∧ (nayaxWebhook (some nayaxFix) [recNoIp, recOther] (some 0)).forwards = []
    ∧ (nayaxWebhook (some nayaxFix) [recAddr] (some 0)).forwards
        = [("10.0.0.5", "StartSession")] := by
  have h1 := c6_amended [recNoIp, recOther] nayaxFix (some 0) stripeEvFix
    false false false false (by decide) rfl (by decide) (by decide) (by decide) (by decide)
  have h2 := c6_amended [recAddr] nayaxFix (some 0) stripeEvFix
    false false false false (by decide) rfl (by decide) (by decide) (by decide) (by decide)
  refine ⟨(h1.1 (by decide)).1, ?_, (h1.2.2.2.1 (by decide)).1, ?_⟩
  · exact h2.2.1 recAddr "10.0.0.5" rfl (by decide)
  · exact h2.2.2.2.2.1 recAddr "10.0.0.5" rfl (by decide)

/-- Claim C2 fails on the code: the product-sync dispatcher skips the
direct-HTTP-push transport entirely — with the live push failing and the
device's last known address on record, it queues immediately, attempting
no HTTP push. -/
theorem c2_counterexample :
    machineIp mAddrFix = some "10.0.0.5"
    ∧ (syncProductsPOST (some adminFix) true wsEmpty dbAddrFix 7 "m1"
        (some [Prim.s "p"])).2.2 = [Step.live, Step.queue]
    ∧ (syncProductsPOST (some adminFix) true wsEmpty dbAddrFix 7 "m1"
        (some [Prim.s "p"])).2.1.transport = some "http-pending" := by decide

/-- Claim C2 amended: the stripe-config dispatcher attempts live push,
then direct HTTP push to the last known address with a bounded timeout,
then queue, each step only after the previous is unavailable or failed;
the product-sync dispatcher attempts only live push then queue (no direct
HTTP step); in both, reaching the queue step still yields a success
response, and the response reports the transport that handled delivery. -/
theorem c2_amended (u : Session) (wsAvail : Bool) (ws : WsState)
    (db : MachinesDB) (now : Nat) (mid : String) (cfg : StripeCfg) (httpOk : Bool)
    (ps : List Prim) (m : Machine)
    (hu : u.role = "admin") (hm : alookup db mid = some m) :
    ((stripeConfigPOST (some u) wsAvail ws db now mid cfg httpOk).2.2).Sublist
        [Step.live, Step.http, Step.queue]
    ∧ ((syncProductsPOST (some u) wsAvail ws db now mid (some ps)).2.2).Sublist
        [Step.live, Step.queue]
    ∧ Step.http ∉ (syncProductsPOST (some u) wsAvail ws db now mid (some ps)).2.2
    ∧ (Step.http ∈ (stripeConfigPOST (some u) wsAvail ws db now mid cfg httpOk).2.2 →
        (wsAvail && wsPush ws mid) = false ∧ (machineIp m).isSome = true)
    ∧ (Step.queue ∈ (stripeConfigPOST (some u) wsAvail ws db now mid cfg httpOk).2.2 →
        (wsAvail && wsPush ws mid) = false
        ∧ (machineIp m = none ∨ httpOk = false)
        ∧ (stripeConfigPOST (some u) wsAvail ws db now mid cfg httpOk).2.1 =
            { status := 200, ok := true, transport := some "http-pending" })
    ∧ (Step.queue ∈ (syncProductsPOST (some u) wsAvail ws db now mid (some ps)).2.2 →
        (wsAvail && wsPush ws mid) = false
        ∧ (syncProductsPOST (some u) wsAvail ws db now mid (some ps)).2.1 =
            { status := 200, ok := true, transport := some "http-pending" })
    ∧ ((wsAvail && wsPush ws mid) = true →
        (stripeConfigPOST (some u) wsAvail ws db now mid cfg httpOk).2.1.transport
            = some "websocket"
        ∧ (syncProductsPOST (some u) wsAvail ws db now mid (some ps)).2.1.transport
            = some "websocket")
    ∧ ((wsAvail && wsPush ws mid) = false → machineIp m ≠ none → httpOk = true →
        (stripeConfigPOST (some u) wsAvail ws db now mid cfg httpOk).2.1.transport
            = some "http-push") := by
  cases wsAvail <;> cases httpOk <;>
    cases hpush : wsPush ws mid <;> cases hip : machineIp m <;>
      simp [stripeConfigPOST, syncProductsPOST, hu, hm, hpush, hip]

/-- Witness for the amended C2 at a one-device registry with a recorded
address, live channel absent and direct push failing. -/
theorem c2_amended_witness :
    ((stripeConfigPOST (some adminFix) true wsEmpty dbAddrFix 7 "m1" cfgFix false).2.2).Sublist
        [Step.live, Step.http, Step.queue]
    ∧ Step.http ∉ (syncProductsPOST (some adminFix) true wsEmpty dbAddrFix 7 "m1"
        (some [Prim.s "p"])).2.2 := by
  have h := c2_amended adminFix true wsEmpty dbAddrFix 7 "m1" cfgFix false
    [Prim.s "p"] mAddrFix rfl rfl
  exact ⟨h.1, h.2.2.1⟩

lemma syncQueue_step (u : Session) (db : MachinesDB) (mid : String)
    (now : Nat) (ps : List Prim) (m : Machine)
    (hu : u.role = "admin") (hm : alookup db mid = some m) :
    (syncProductsPOST (some u) false wsEmpty db now mid (some ps)).1 =
      aset db mid { m with pendingSync := some ⟨ps, now, some u.email⟩ } := by
  simp [syncProductsPOST, hu, hm]

lemma stripeQueue_step (u : Session) (db : MachinesDB) (mid : String)
    (now : Nat) (cfg : StripeCfg) (m : Machine)
    (hu : u.role = "admin") (hm : alookup db mid = some m) :
    (stripeConfigPOST (some u) false wsEmpty db now mid cfg false).1 =
      aset db mid { m with pendingStripeConfig := some ⟨cfg.envContent, cfg.readerId, cfg.simulation, cfg.secretKey, now, u.email⟩ } := by
  cases hip : machineIp m <;> simp [stripeConfigPOST, hu, hm, hip]

lemma runSync_spec (u : Session) (mid : String) (hu : u.role = "admin") :
    ∀ (ops : List (Nat × List Prim)) (hne : ops ≠ []) (db : MachinesDB) (m : Machine),
      alookup db mid = some m →
      (alookup (runSyncQueueSeq u db mid ops) mid).bind Machine.pendingSync =
        some { products := (ops.getLast hne).2, queuedAt := (ops.getLast hne).1,
               queuedBy := some u.email } := by
  intro ops
  induction ops with
  | nil => intro hne; exact absurd rfl hne
  | cons op rest ih =>
    intro hne db m hm
    have hstep := syncQueue_step u db mid op.1 op.2 m hu hm
    by_cases hr : rest = []
    · subst hr
      simp [runSyncQueueSeq, hstep, alookup_aset_self]
    · have hm2 : alookup (syncProductsPOST (some u) false wsEmpty db op.1 mid (some op.2)).1 mid
          = some { m with pendingSync := some ⟨op.2, op.1, some u.email⟩ } := by
        rw [hstep]; exact alookup_aset_self ..
      have hrec := ih hr _ _ hm2
      rw [List.getLast_cons hr]
      simpa [runSyncQueueSeq] using hrec

lemma runStripe_spec (u : Session) (mid : String) (hu : u.role = "admin") :
    ∀ (ops : List (Nat × StripeCfg)) (hne : ops ≠ []) (db : MachinesDB) (m : Machine),
      alookup db mid = some m →
      (alookup (runStripeQueueSeq u db mid ops) mid).bind Machine.pendingStripeConfig =
        some { envContent := (ops.getLast hne).2.envContent,
               readerId := (ops.getLast hne).2.readerId,
               simulation := (ops.getLast hne).2.simulation,
               secretKey := (ops.getLast hne).2.secretKey,
               queuedAt := (ops.getLast hne).1, queuedBy := u.email } := by
  intro ops
  induction ops with
  | nil => intro hne; exact absurd rfl hne
  | cons op rest ih =>
    intro hne db m hm
    have hstep := stripeQueue_step u db mid op.1 op.2 m hu hm
    by_cases hr : rest = []
    · subst hr
      simp [runStripeQueueSeq, hstep, alookup_aset_self]
    · have hm2 : alookup (stripeConfigPOST (some u) false wsEmpty db op.1 mid op.2 false).1 mid
          = some { m with pendingStripeConfig := some ⟨op.2.envContent, op.2.readerId, op.2.simulation, op.2.secretKey, op.1, u.email⟩ } := by
        rw [hstep]; exact alookup_aset_self ..
      have hrec := ih hr _ _ hm2
      rw [List.getLast_cons hr]
      simpa [runStripeQueueSeq] using hrec

/-- Claim C8: each named pending slot holds at most one undelivered
command and queuing overwrites the previous one: after any nonempty
sequence of queue operations (dispatcher calls that take the queue path),
the slot contains exactly the most recently queued command — for both the
product-sync slot and the terminal-config slot. -/
theorem c8_slot_last_write_wins (u : Session) (db : MachinesDB) (mid : String) (m : Machine)
    (hu : u.role = "admin") (hm : alookup db mid = some m)
    (ops : List (Nat × List Prim)) (hne : ops ≠ [])
    (cops : List (Nat × StripeCfg)) (hcne : cops ≠ []) :
    ((alookup (runSyncQueueSeq u db mid ops) mid).bind Machine.pendingSync =
        some { products := (ops.getLast hne).2, queuedAt := (ops.getLast hne).1,
               queuedBy := some u.email })
    ∧ ((alookup (runStripeQueueSeq u db mid cops) mid).bind Machine.pendingStripeConfig =
        some { envContent := (cops.getLast hcne).2.envContent,
               readerId := (cops.getLast hcne).2.readerId,
               simulation := (cops.getLast hcne).2.simulation,
               secretKey := (cops.getLast hcne).2.secretKey,
               queuedAt := (cops.getLast hcne).1, queuedBy := u.email }) :=
  ⟨runSync_spec u mid hu ops hne db m hm, runStripe_spec u mid hu cops hcne db m hm⟩

/-- Witness for C8: two successive product-sync queues leave the second
command in the slot; one stripe-config queue leaves that config. -/
theorem c8_slot_last_write_wins_witness :
    ((alookup (runSyncQueueSeq adminFix dbFix "m1" [(3, [Prim.s "A"]), (4, [Prim.s "B"])]) "m1").bind
        Machine.pendingSync =
      some { products := [Prim.s "B"], queuedAt := 4, queuedBy := some "admin@shaka" })
    ∧ ((alookup (runStripeQueueSeq adminFix dbFix "m1" [(5, cfgFix)]) "m1").bind
        Machine.pendingStripeConfig =
      some { envContent := "ENV", readerId := "tmr_1", simulation := true,
             secretKey := "sk_test", queuedAt := 5, queuedBy := "admin@shaka" }) := by
  have h := c8_slot_last_write_wins adminFix dbFix "m1" mFix rfl rfl
    [(3, [Prim.s "A"]), (4, [Prim.s "B"])] (by decide) [(5, cfgFix)] (by decide)
  exact h

lemma pong_foldl_table (l : List Nat) : ∀ (st : WsState),
    (l.foldl wsPong st).table = st.table := by
  induction l with
  | nil => intro st; rfl
  | cons x xs ih =>
    intro st
    rw [List.foldl_cons, ih]
    rfl

lemma pong_foldl_mem (c : Conn) : ∀ (l : List Nat) (st : WsState),
    c ∈ st.conns → (∀ x ∈ l, x ≠ c.cid) → c ∈ (l.foldl wsPong st).conns := by
  intro l
  induction l with
  | nil => intro st hc _; exact hc
  | cons x xs ih =>
    intro st hc hl
    rw [List.foldl_cons]
    apply ih _ _ (fun y hy => hl y (List.mem_cons_of_mem x hy))
    have hx : ¬ c.cid = x := fun h => hl x (List.mem_cons_self x xs) h.symm
    have hfc : (fun d => if d.cid = x then { d with isAlive := true } else d) c = c := by
      simp [hx]
    have hmem := List.mem_map_of_mem
      (fun d => if d.cid = x then { d with isAlive := true } else d) hc
    rw [hfc] at hmem
    exact hmem

lemma pong_foldl_mem_rev (d : Conn) : ∀ (l : List Nat) (st : WsState),
    d ∈ (l.foldl wsPong st).conns →
    ∃ e ∈ st.conns, d.cid = e.cid ∧ d.authedAs = e.authedAs
      ∧ (d.isAlive = e.isAlive ∨ d.cid ∈ l) := by
  intro l
  induction l with
  | nil => intro st hd; exact ⟨d, hd, rfl, rfl, Or.inl rfl⟩
  | cons x xs ih =>
    intro st hd
    rw [List.foldl_cons] at hd
    obtain ⟨e1, he1, hcid, hauth, hai⟩ := ih (wsPong st x) hd
    obtain ⟨e0, he0, hmap⟩ := List.mem_map.mp he1
    by_cases hx : e0.cid = x
    · refine ⟨e0, he0, ?_, ?_, Or.inr ?_⟩
      · rw [hcid, ← hmap]; simp [hx]
      · rw [hauth, ← hmap]; simp [hx]
      · have : d.cid = x := by rw [hcid, ← hmap]; simp [hx]
        rw [this]; exact List.mem_cons_self x xs
    · have he1e0 : e1 = e0 := by rw [← hmap]; simp [hx]
      subst he1e0
      exact ⟨e1, he0, hcid, hauth, hai.imp_right (List.mem_cons_of_mem x)⟩

lemma pingTick_mem_rev (st : WsState) (d : Conn) (hd : d ∈ (pingTick st).conns) :
    ∃ e ∈ st.conns, e.isAlive = true ∧ d = { e with isAlive := false } := by
  simp only [pingTick, List.mem_map, List.mem_filter] at hd
  obtain ⟨e, ⟨he, hal⟩, hmap⟩ := hd
  exact ⟨e, he, hal, hmap.symm⟩

lemma pingTick_mem (st : WsState) (c : Conn) (hc : c ∈ st.conns) (ha : c.isAlive = true) :
    ({ c with isAlive := false } : Conn) ∈ (pingTick st).conns := by
  simp only [pingTick, List.mem_map, List.mem_filter]
  exact ⟨c, ⟨hc, ha⟩, rfl⟩

lemma pingTick_all_dead (st : WsState) (d : Conn) (hd : d ∈ (pingTick st).conns) :
    d.isAlive = false := by
  obtain ⟨e, _, _, hde⟩ := pingTick_mem_rev st d hd
  rw [hde]

lemma pingTick_kills (st : WsState) (c : Conn) (mid : String)
    (hc : c ∈ st.conns) (hdead : c.isAlive = false) (hauth : c.authedAs = some mid) :
    alookup (pingTick st).table mid = none := by
  apply alookup_filter_none
  intro v
  simp only [decide_eq_false_iff_not, not_not, List.any_eq_true]
  exact ⟨c, hc, by simp [hdead, hauth]⟩

lemma pingTick_table_none (st : WsState) (mid : String)
    (h : alookup st.table mid = none) : alookup (pingTick st).table mid = none :=
  alookup_filter_of_none st.table mid _ h

/-- Claim C5: an authenticated live connection that never responds to two
consecutive liveness probes (no pong of its own between the two interval
rounds — other channels may pong freely) is forcibly closed: after the
second round its device id is gone from the live-connection table, a push
to that id returns false, and no channel with this channel's identity
remains open. -/
theorem c5_liveness_two_strike (s : WsState) (c : Conn) (mid : String) (pongs : List Nat)
    (hc : c ∈ s.conns) (hauth : c.authedAs = some mid)
    (hp : ∀ x ∈ pongs, x ≠ c.cid) :
    alookup (pingTick (pongs.foldl wsPong (pingTick s))).table mid = none
    ∧ wsPush (pingTick (pongs.foldl wsPong (pingTick s))) mid = false
    ∧ ∀ d ∈ (pingTick (pongs.foldl wsPong (pingTick s))).conns, d.cid ≠ c.cid := by
  have htab : alookup (pingTick (pongs.foldl wsPong (pingTick s))).table mid = none := by
    cases halive : c.isAlive with
    | false =>
      have h1 : alookup (pingTick s).table mid = none :=
        pingTick_kills s c mid hc halive hauth
      have h2 : alookup (pongs.foldl wsPong (pingTick s)).table mid = none := by
        rw [pong_foldl_table]; exact h1
      exact pingTick_table_none _ _ h2
    | true =>
      have hc1 : ({ c with isAlive := false } : Conn) ∈ (pingTick s).conns :=
        pingTick_mem s c hc halive
      have hc2 : ({ c with isAlive := false } : Conn) ∈ (pongs.foldl wsPong (pingTick s)).conns :=
        pong_foldl_mem _ pongs _ hc1 hp
      exact pingTick_kills _ _ mid hc2 rfl hauth
  refine ⟨htab, ?_, ?_⟩
  · simp [wsPush, htab]
  · intro d hd hdc
    obtain ⟨e, he, heAlive, hde⟩ := pingTick_mem_rev _ d hd
    obtain ⟨e0, he0, hcid0, hauth0, hai⟩ := pong_foldl_mem_rev e pongs _ he
    have hecid : e.cid = c.cid := by
      have hdcid : d.cid = e.cid := by rw [hde]
      rw [← hdcid, hdc]
    cases hai with
    | inl h =>
      have he0dead : e0.isAlive = false := pingTick_all_dead s e0 he0
      rw [h, he0dead] at heAlive
      exact Bool.false_ne_true heAlive
    | inr h =>
      exact hp e.cid h hecid

/-- Witness for C5 at a single authenticated channel that never pongs:
after two probe rounds its table entry is gone and a push fails. -/
theorem c5_liveness_two_strike_witness :
    alookup (pingTick (List.foldl wsPong
      (pingTick (wsAuth (wsConnect wsEmpty 1) 1 (some "m"))) [])).table "m" = none
    ∧ wsPush (pingTick (List.foldl wsPong
      (pingTick (wsAuth (wsConnect wsEmpty 1) 1 (some "m"))) [])) "m" = false := by
  have h := c5_liveness_two_strike (wsAuth (wsConnect wsEmpty 1) 1 (some "m"))
    { cid := 1, isAlive := true, authedAs := some "m" } "m" [] (by decide) rfl (by simp)
  exact ⟨h.1, h.2.1⟩

end ShakaFleet
